import Mathlib

/-!
Verification of the real-time session hub of the `aicohost` repository.

The embedding below follows `src/server/routes.ts` (the WebSocket Session
Router, its broadcast helpers and the AI-response / hotkey / personality
handlers) and `src/server/services/audio.ts` (the `AudioProcessor` audio
buffer).  JavaScript runtime values that the router manipulates untyped are
modelled by the `JVal` type; JavaScript truthiness and the `||` operator are
modelled explicitly, and a missing object property is represented by
`JVal.jundefined` (JavaScript `undefined`).  The opaque asynchronous
collaborators (storage reads, `generateAIResponse`, `synthesizeSpeech`) are
modelled as oracle values in `OrchEnv`; outbound `ws.send` calls become an
explicit list of `(clientId, payload)` pairs and storage/audio side effects
become an explicit list of `Event`s.
-/

namespace AICohost

/-- A JavaScript value as the router sees it: `undefined`, `null`, booleans,
numbers (abstracted to integers), strings, and objects (ordered field
lists).  Mirrors the untyped payloads of `src/server/routes.ts`. -/
inductive JVal where
  | jundefined : JVal
  | jnull : JVal
  | jbool (b : Bool) : JVal
  | jnum (n : Int) : JVal
  | jstr (s : String) : JVal
  | jobj (fields : List (String × JVal)) : JVal
deriving Repr

mutual

def JVal.decEq (v w : JVal) : Decidable (v = w) := by
  cases v <;> cases w <;>
    try { apply isFalse; intro h; injection h }
  case jundefined.jundefined => exact isTrue rfl
  case jnull.jnull => exact isTrue rfl
  case jbool.jbool a b =>
    exact if h : a = b then isTrue (by rw [h])
      else isFalse (by intro hh; injection hh; contradiction)
  case jnum.jnum a b =>
    exact if h : a = b then isTrue (by rw [h])
      else isFalse (by intro hh; injection hh; contradiction)
  case jstr.jstr a b =>
    exact if h : a = b then isTrue (by rw [h])
      else isFalse (by intro hh; injection hh; contradiction)
  case jobj.jobj fs gs =>
    exact match JVal.decEqFields fs gs with
    | isTrue h => isTrue (by rw [h])
    | isFalse hn => isFalse (by intro h; injection h; contradiction)

def JVal.decEqFields (fs gs : List (String × JVal)) : Decidable (fs = gs) :=
  match fs, gs with
  | [], [] => isTrue rfl
  | _ :: _, [] => isFalse (by intro h; injection h)
  | [], _ :: _ => isFalse (by intro h; injection h)
  | (k, v) :: fs', (l, w) :: gs' =>
    match String.decEq k l, JVal.decEq v w, JVal.decEqFields fs' gs' with
    | isTrue h1, isTrue h2, isTrue h3 => isTrue (by rw [h1, h2, h3])
    | isFalse h1, _, _ => isFalse (by intro h; injection h with h' _; injection h' with h1' _; exact h1 h1')
    | _, isFalse h2, _ => isFalse (by intro h; injection h with h' _; injection h' with _ h2'; exact h2 h2')
    | _, _, isFalse h3 => isFalse (by intro h; injection h with _ h3'; exact h3 h3')

end

instance : DecidableEq JVal := JVal.decEq

/-- JavaScript truthiness of a `JVal` (`undefined`, `null`, `false`, `0` and
`""` are falsy; every object is truthy). -/
def jTruthy : JVal → Bool
  | .jundefined => false
  | .jnull => false
  | .jbool b => b
  | .jnum n => n != 0
  | .jstr s => s != ""
  | .jobj _ => true

/-- Property lookup returning `none` when the object has no such key or the
value is not an object at all. -/
def jGet (v : JVal) (k : String) : Option JVal :=
  match v with
  | .jobj fs => fs.lookup k
  | _ => none

/-- JavaScript property access `v.k`: a missing property reads as
`undefined`, as does property access on a non-object. -/
def jField (v : JVal) (k : String) : JVal :=
  (jGet v k).getD .jundefined

/-- The JavaScript `||` operator: the left operand if truthy, else the
right. -/
def jsOr (a b : JVal) : JVal :=
  if jTruthy a then a else b

/-- Whether a value is defined (not JavaScript `undefined`); a field holding
`undefined` is dropped by `JSON.stringify`, so a populated envelope field
must be defined. -/
def jDefined : JVal → Bool
  | .jundefined => false
  | _ => true

/-- Test that a value is exactly a given string (the `===` comparisons the
router performs against string literals). -/
def isStr (v : JVal) (s : String) : Bool :=
  match v with
  | .jstr t => t == s
  | _ => false

/-- One live WebSocket connection as recorded in the router's `clients`
map (`WebSocketClient` in `src/server/routes.ts`).  `sessionId`, `isHost`
and `clientType` start out as JavaScript `undefined` and are assigned
whatever values the join handlers compute; `wsOpen` models
`ws.readyState === WebSocket.OPEN`. -/
structure Client where
  clientId : String
  sessionId : JVal := .jundefined
  isHost : JVal := .jundefined
  clientType : JVal := .jundefined
  wsOpen : Bool := true
deriving Repr, DecidableEq

/-- An outbound `ws.send`: the receiving connection's id and the JSON
payload. -/
abbrev Send := String × JVal

/-- Side effects the handlers perform besides sending frames: feeding the
audio processor, calling the AI text-generation collaborator, persisting a
message, updating analytics, upserting the personality. -/
inductive Event where
  | audioChunkFed (data : JVal)
  | generateCalled (transcript : JVal)
  | messageCreated (sessionId : JVal) (content : String)
  | analyticsUpdated (sessionId : JVal)
  | personalityUpserted (sessionId : JVal)
deriving Repr, DecidableEq

/-- Oracle values for the opaque asynchronous collaborators used by
`handleAIResponseRequest` and `handlePersonalityUpdate`: the id of the
session's AI speaker (if any), the outcome of `generateAIResponse`
(response text and confidence, or a thrown error message), the outcome of
`synthesizeSpeech` (base64 audio or a thrown error message), whether
`getAnalytics` finds a record, and the personality object
`upsertAIPersonality` returns. -/
structure OrchEnv where
  aiSpeakerId : Option String
  generate : Except String (String × Int)
  synthesize : Except String String
  analyticsPresent : Bool
  upsertedPersonality : JVal
deriving Repr

/-- `broadcastToSession` of `src/server/routes.ts`: send to every open
connection whose `sessionId` equals the given one, skipping
`excludeClientId` when provided. -/
def broadcastToSession (clients : List Client) (sessionId : JVal) (payload : JVal)
    (excludeId : Option String) : List Send :=
  (clients.filter (fun c =>
    c.sessionId == sessionId && c.wsOpen && excludeId != some c.clientId)).map
    (fun c => (c.clientId, payload))

/-- `broadcastToBrowserClients` of `src/server/routes.ts`. -/
def broadcastToBrowserClients (clients : List Client) (sessionId : JVal)
    (payload : JVal) : List Send :=
  (clients.filter (fun c =>
    c.sessionId == sessionId && isStr c.clientType "browser" && c.wsOpen)).map
    (fun c => (c.clientId, payload))

/-- `broadcastToDesktopClients` of `src/server/routes.ts`. -/
def broadcastToDesktopClients (clients : List Client) (sessionId : JVal)
    (payload : JVal) : List Send :=
  (clients.filter (fun c =>
    c.sessionId == sessionId && isStr c.clientType "desktop" && c.wsOpen)).map
    (fun c => (c.clientId, payload))

/-- Replace the entry of `clientId` in the clients map (the in-place
mutation of the `client` record in the handlers). -/
def updateClient (clients : List Client) (clientId : String) (c' : Client) :
    List Client :=
  clients.map (fun c => if c.clientId == clientId then c' else c)

/-- The legacy-dialect normalization at the top of
`handleWebSocketMessage`: a frame with falsy `source` and falsy
`timestamp` is rebuilt as a typed envelope whose `source` is the
connection's `clientType` (defaulting to `"browser"`), whose `data` is the
frame's own `data` field if truthy and otherwise the whole frame, and
whose `timestamp` is freshly stamped (`now`). -/
def normalizeMessage (client : Client) (msg : JVal) (now : Int) : JVal :=
  if !(jTruthy (jField msg "source")) && !(jTruthy (jField msg "timestamp")) then
    .jobj [("type", jField msg "type"),
           ("source", jsOr client.clientType (.jstr "browser")),
           ("data", jsOr (jField msg "data") msg),
           ("timestamp", .jnum now)]
  else msg

/-- Result of one dispatch of `handleWebSocketMessage`: the updated clients
map, the outbound sends (in order), and the side effects (in order). -/
structure StepResult where
  clients : List Client
  sends : List Send
  events : List Event
deriving Repr, DecidableEq

/-- The `error` frame `handleAIResponseRequest` sends to the requesting
connection when a collaborator throws (`{ type: 'error', message }`). -/
def orchErrorReply (e : String) : JVal :=
  .jobj [("type", .jstr "error"), ("message", .jstr e)]

/-- The persisted AI message as `createMessage` returns it
(storage-assigned id and creation time omitted; no claim touches them). -/
def aiMessageOf (c : Client) (response : String) (confidence : Int)
    (aiId : String) : JVal :=
  .jobj [("sessionId", c.sessionId), ("speakerId", .jstr aiId),
         ("content", .jstr response), ("confidence", .jnum confidence),
         ("isAIGenerated", .jbool true)]

/-- The `aiResponse` envelope `handleAIResponseRequest` broadcasts: only
`type` and `data` fields. -/
def aiResponsePayload (c : Client) (response : String) (confidence : Int)
    (aiId audio : String) : JVal :=
  .jobj [("type", .jstr "aiResponse"),
         ("data", .jobj [("message", aiMessageOf c response confidence aiId),
                         ("audio", .jstr audio)])]

/-- `handleAIResponseRequest` of `src/server/routes.ts`: guard on a truthy
`sessionId`, call the AI text-generation collaborator, persist the AI
message, synthesize speech, broadcast one `aiResponse` envelope to the
whole session (sender included), then update analytics when a record
exists; any thrown collaborator error aborts the rest and sends a single
`error` frame back to the requesting connection. -/
def handleAIResponseRequest (env : OrchEnv) (clients : List Client) (c : Client)
    (msg : JVal) : List Send × List Event :=
  if !(jTruthy c.sessionId) then ([], [])
  else
    let transcript := jsOr (jField msg "transcript") (.jstr "")
    match env.generate with
    | .error e => ([(c.clientId, orchErrorReply e)], [.generateCalled transcript])
    | .ok (response, confidence) =>
      match env.aiSpeakerId with
      | none => ([], [.generateCalled transcript])
      | some aiId =>
        match env.synthesize with
        | .error e =>
          ([(c.clientId, orchErrorReply e)],
           [.generateCalled transcript, .messageCreated c.sessionId response])
        | .ok audio =>
          (broadcastToSession clients c.sessionId
            (aiResponsePayload c response confidence aiId audio) none,
           [.generateCalled transcript, .messageCreated c.sessionId response] ++
             (if env.analyticsPresent then [.analyticsUpdated c.sessionId] else []))

/-- The `hotkeyTriggered` envelope `handleHotkey` broadcasts: only `type`
and `data` fields, with `data` the destructured `key`/`command` of the
(post-normalization) message. -/
def hotkeyEnvelope (msg : JVal) : JVal :=
  .jobj [("type", .jstr "hotkeyTriggered"),
         ("data", .jobj [("key", jField msg "key"), ("command", jField msg "command")])]

/-- The transcripts hard-wired to the three recognized hotkey commands in
`handleHotkey`'s `switch`. -/
def hotkeyTranscript (command : JVal) : Option String :=
  if command = .jstr "riff" then
    some "Continue with a creative riff on the current topic"
  else if command = .jstr "oneLiner" then
    some "Respond with just a quick one-liner"
  else if command = .jstr "wrap" then
    some "Help wrap up this topic in the next 10 seconds"
  else none

/-- `handleHotkey` of `src/server/routes.ts`: broadcast `hotkeyTriggered`
to the whole session with no exclusion, then possibly invoke the AI
request handler for the three known commands. -/
def handleHotkey (env : OrchEnv) (clients : List Client) (c : Client)
    (msg : JVal) : List Send × List Event :=
  if !(jTruthy c.sessionId) then ([], [])
  else
    let s1 := broadcastToSession clients c.sessionId (hotkeyEnvelope msg) none
    match hotkeyTranscript (jField msg "command") with
    | some t =>
      let r := handleAIResponseRequest env clients c (.jobj [("transcript", .jstr t)])
      (s1 ++ r.1, r.2)
    | none => (s1, [])

/-- `handlePersonalityUpdate` of `src/server/routes.ts`: upsert the
personality, broadcast `personalityUpdated` (type and data only) to the
whole session with no exclusion. -/
def handlePersonalityUpdate (env : OrchEnv) (clients : List Client) (c : Client)
    (_msg : JVal) : List Send × List Event :=
  if !(jTruthy c.sessionId) then ([], [])
  else
    (broadcastToSession clients c.sessionId
      (.jobj [("type", .jstr "personalityUpdated"), ("data", env.upsertedPersonality)]) none,
     [.personalityUpserted c.sessionId])

/-- The `status { client_connected }` envelope the `joinSession` branch
broadcasts. -/
def joinStatusEnvelope (clientType : JVal) (clientId : String) (now : Int) : JVal :=
  .jobj [("type", .jstr "status"), ("source", .jstr "server"),
         ("data", .jobj [("status", .jstr "client_connected"),
                         ("clientType", clientType), ("clientId", .jstr clientId)]),
         ("timestamp", .jnum now)]

/-- `client.sessionId = message.sessionId || message.data?.sessionId`: the
top-level (legacy-position) field is read first, the typed `data` field
second. -/
def joinSessionIdOf (msg : JVal) : JVal :=
  jsOr (jField msg "sessionId") (jField (jField msg "data") "sessionId")

/-- `client.isHost = message.isHost || message.data?.isHost || false`. -/
def joinIsHostOf (msg : JVal) : JVal :=
  jsOr (jsOr (jField msg "isHost") (jField (jField msg "data") "isHost")) (.jbool false)

/-- `client.clientType = message.clientType || message.data?.clientType ||
'browser'`. -/
def joinClientTypeOf (msg : JVal) : JVal :=
  jsOr (jsOr (jField msg "clientType") (jField (jField msg "data") "clientType")) (.jstr "browser")

/-- The connection record after the `joinSession` branch's mutations. -/
def joinedClient (c : Client) (msg : JVal) : Client :=
  { c with sessionId := joinSessionIdOf msg, isHost := joinIsHostOf msg,
           clientType := joinClientTypeOf msg }

/-- `joinSession` branch of `handleWebSocketMessage`: record
`sessionId`/`isHost`/`clientType` reading the top-level field first and
the envelope's `data` field second (JavaScript `||`), then notify the
rest of the session, excluding the sender. -/
def handleJoinSession (clients : List Client) (c : Client) (msg : JVal)
    (now : Int) : StepResult :=
  let c' := joinedClient c msg
  let clients' := updateClient clients c.clientId c'
  if jTruthy (joinSessionIdOf msg) then
    ⟨clients',
     broadcastToSession clients' (joinSessionIdOf msg)
       (joinStatusEnvelope (joinClientTypeOf msg) c.clientId now) (some c.clientId), []⟩
  else ⟨clients', [], []⟩

/-- The `status { desktop_connected }` envelope the `desktop_connect`
branch broadcasts; its `data` carries only `status` and `sessionId`. -/
def desktopStatusEnvelope (sessionId : JVal) (now : Int) : JVal :=
  .jobj [("type", .jstr "status"), ("source", .jstr "server"),
         ("data", .jobj [("status", .jstr "desktop_connected"), ("sessionId", sessionId)]),
         ("timestamp", .jnum now)]

/-- `client.sessionId = message.data?.sessionId` — the `desktop_connect`
branch reads `sessionId` from `data` only. -/
def dcSessionIdOf (msg : JVal) : JVal :=
  jField (jField msg "data") "sessionId"

/-- The connection record after the `desktop_connect` branch's mutations. -/
def dcClient (c : Client) (msg : JVal) : Client :=
  { c with clientType := .jstr "desktop", sessionId := dcSessionIdOf msg }

/-- `desktop_connect` branch: force `clientType := 'desktop'`, read
`sessionId` from `data` only, and notify the browser clients of the
session. -/
def handleDesktopConnect (clients : List Client) (c : Client) (msg : JVal)
    (now : Int) : StepResult :=
  let clients' := updateClient clients c.clientId (dcClient c msg)
  if jTruthy (dcSessionIdOf msg) then
    ⟨clients',
     broadcastToBrowserClients clients' (dcSessionIdOf msg)
       (desktopStatusEnvelope (dcSessionIdOf msg) now), []⟩
  else ⟨clients', [], []⟩

/-- The typed envelope rebuilt by the forwarding branches (`transcript`,
`ai_response`, `control_command`, `audio_levels`): fixed `type` and
`source`, pass-through `data`, and the inbound `timestamp` or a fresh
stamp. -/
def forwardEnvelope (t src : String) (msg : JVal) (now : Int) : JVal :=
  .jobj [("type", .jstr t), ("source", .jstr src), ("data", jField msg "data"),
         ("timestamp", jsOr (jField msg "timestamp") (.jnum now))]

/-- `transcript` branch: a joined desktop connection's transcript is
forwarded to the session's browser connections. -/
def handleTranscript (clients : List Client) (c : Client) (msg : JVal)
    (now : Int) : StepResult :=
  if isStr c.clientType "desktop" && jTruthy c.sessionId then
    ⟨clients,
     broadcastToBrowserClients clients c.sessionId
       (forwardEnvelope "transcript" "desktop" msg now), []⟩
  else ⟨clients, [], []⟩

/-- `ai_response` branch: browser to desktop. -/
def handleAiResponseForward (clients : List Client) (c : Client) (msg : JVal)
    (now : Int) : StepResult :=
  if isStr c.clientType "browser" && jTruthy c.sessionId then
    ⟨clients,
     broadcastToDesktopClients clients c.sessionId
       (forwardEnvelope "ai_response" "browser" msg now), []⟩
  else ⟨clients, [], []⟩

/-- `control_command` branch: browser to desktop. -/
def handleControlCommand (clients : List Client) (c : Client) (msg : JVal)
    (now : Int) : StepResult :=
  if isStr c.clientType "browser" && jTruthy c.sessionId then
    ⟨clients,
     broadcastToDesktopClients clients c.sessionId
       (forwardEnvelope "control_command" "browser" msg now), []⟩
  else ⟨clients, [], []⟩

/-- `audio_levels` branch: desktop to browser. -/
def handleAudioLevels (clients : List Client) (c : Client) (msg : JVal)
    (now : Int) : StepResult :=
  if isStr c.clientType "desktop" && jTruthy c.sessionId then
    ⟨clients,
     broadcastToBrowserClients clients c.sessionId
       (forwardEnvelope "audio_levels" "desktop" msg now), []⟩
  else ⟨clients, [], []⟩

/-- `status` branch: forward to the rest of the session, excluding the
sender, with `source := message.source || client.clientType || 'browser'`. -/
def handleStatus (clients : List Client) (c : Client) (msg : JVal)
    (now : Int) : StepResult :=
  if jTruthy c.sessionId then
    ⟨clients,
     broadcastToSession clients c.sessionId
       (.jobj [("type", .jstr "status"),
               ("source", jsOr (jsOr (jField msg "source") c.clientType) (.jstr "browser")),
               ("data", jField msg "data"),
               ("timestamp", jsOr (jField msg "timestamp") (.jnum now))])
       (some c.clientId), []⟩
  else ⟨clients, [], []⟩

/-- The `switch (message.type)` of `handleWebSocketMessage`; an
unrecognized or non-string `type` falls through with no effect. -/
def routeMessage (env : OrchEnv) (clients : List Client) (c : Client)
    (msg : JVal) (now : Int) : StepResult :=
  match jGet msg "type" with
  | some (.jstr t) =>
    if t = "joinSession" then handleJoinSession clients c msg now
    else if t = "desktop_connect" then handleDesktopConnect clients c msg now
    else if t = "transcript" then handleTranscript clients c msg now
    else if t = "ai_response" then handleAiResponseForward clients c msg now
    else if t = "control_command" then handleControlCommand clients c msg now
    else if t = "audio_levels" then handleAudioLevels clients c msg now
    else if t = "status" then handleStatus clients c msg now
    else if t = "audioData" then
      if jTruthy (jField msg "data") then
        ⟨clients, [], [.audioChunkFed (jField msg "data")]⟩
      else ⟨clients, [], []⟩
    else if t = "requestAIResponse" then
      let r := handleAIResponseRequest env clients c msg
      ⟨clients, r.1, r.2⟩
    else if t = "hotkey" then
      let r := handleHotkey env clients c msg
      ⟨clients, r.1, r.2⟩
    else if t = "updatePersonality" then
      let r := handlePersonalityUpdate env clients c msg
      ⟨clients, r.1, r.2⟩
    else ⟨clients, [], []⟩
  | _ => ⟨clients, [], []⟩

/-- `handleWebSocketMessage` of `src/server/routes.ts`: look the sender up
in the clients map, drop the frame when absent or not open, normalize the
legacy dialect once at ingress, then dispatch on the message type. -/
def handleWebSocketMessage (env : OrchEnv) (clients : List Client)
    (clientId : String) (rawMsg : JVal) (now : Int) : StepResult :=
  match clients.find? (fun c => c.clientId == clientId) with
  | none => ⟨clients, [], []⟩
  | some c =>
    if c.wsOpen then routeMessage env clients c (normalizeMessage c rawMsg now) now
    else ⟨clients, [], []⟩

/-- The `connected` greeting sent on transport accept. -/
def connectedEnvelope (clientId : String) (now : Int) : JVal :=
  .jobj [("type", .jstr "connected"), ("source", .jstr "server"),
         ("data", .jobj [("clientId", .jstr clientId)]), ("timestamp", .jnum now)]

/-- The `error` envelope sent to the offending connection when an inbound
frame fails to parse. -/
def parseErrorEnvelope (emsg : String) (now : Int) : JVal :=
  .jobj [("type", .jstr "error"), ("source", .jstr "server"),
         ("data", .jobj [("message", .jstr emsg)]), ("timestamp", .jnum now)]

/-- The `status { client_disconnected }` envelope sent on close of a
joined connection. -/
def disconnectEnvelope (c : Client) (now : Int) : JVal :=
  .jobj [("type", .jstr "status"), ("source", .jstr "server"),
         ("data", .jobj [("status", .jstr "client_disconnected"),
                         ("clientType", c.clientType), ("clientId", .jstr c.clientId)]),
         ("timestamp", .jnum now)]

/-- The `ws.on('close')` handler: notify the rest of the session (if the
connection had joined one) and then remove the entry. -/
def onClose (clients : List Client) (clientId : String) (now : Int) :
    List Client × List Send :=
  let sends :=
    match clients.find? (fun c => c.clientId == clientId) with
    | some c =>
      if jTruthy c.sessionId then
        broadcastToSession clients c.sessionId (disconnectEnvelope c now) (some clientId)
      else []
    | none => []
  (clients.filter (fun c => !(c.clientId == clientId)), sends)

/-- A fully populated envelope: all of `type`, `source`, `data`,
`timestamp` present with defined values (a field holding `undefined`
would be dropped by `JSON.stringify`). -/
def fullEnvelope (v : JVal) : Bool :=
  jDefined (jField v "type") && jDefined (jField v "source") &&
    jDefined (jField v "data") && jDefined (jField v "timestamp")

/-- An object carrying exactly a `type` and a `data` field and nothing
else — the shape of the envelopes built on the legacy broadcast paths
(`aiResponse`, `hotkeyTriggered`, `personalityUpdated`). -/
def typeDataOnly (v : JVal) : Bool :=
  match v with
  | .jobj [("type", _), ("data", _)] => true
  | _ => false

/-- An object carrying exactly a `type` and a `message` field and nothing
else — the shape of the orchestrator's `error` reply. -/
def typeMessageOnly (v : JVal) : Bool :=
  match v with
  | .jobj [("type", _), ("message", _)] => true
  | _ => false

/-! ## Audio buffer (`src/server/services/audio.ts`) -/

/-- `CHUNK_SIZE` of `AudioProcessor` (bytes). -/
def CHUNK_SIZE : Nat := 4096

/-- The mutable state of `AudioProcessor` relevant to buffering: the
`isProcessing` flag and the ordered list of buffered chunks (each chunk a
byte sequence). -/
structure AudioState where
  isProcessing : Bool := false
  audioBuffer : List (List Nat) := []
deriving Repr, DecidableEq

/-- Events `AudioProcessor` emits.  The numeric dB value of `audioLevel`
(floating-point RMS arithmetic) is abstracted: the event records the chunk
it was computed from. -/
inductive AudioEvent where
  | processingStarted
  | processingStopped
  | audioLevelEmitted (chunk : List Nat)
  | audioReady (data : List Nat)
deriving Repr, DecidableEq

/-- `getTotalBufferSize`: the summed byte length of the buffered chunks. -/
def getTotalBufferSize (st : AudioState) : Nat :=
  (st.audioBuffer.map List.length).sum

/-- `startProcessing`: set the flag, leave the buffer, emit
`processingStarted`. -/
def startProcessing (st : AudioState) : AudioState × List AudioEvent :=
  ({ st with isProcessing := true }, [.processingStarted])

/-- `stopProcessing`: clear the flag and discard the buffer
unconditionally, emit `processingStopped`. -/
def stopProcessing (_st : AudioState) : AudioState × List AudioEvent :=
  ({ isProcessing := false, audioBuffer := [] }, [.processingStopped])

/-- `processAudioChunk`: drop the chunk when not processing; otherwise
append it, emit a level event, and when the buffered size reaches
`CHUNK_SIZE * 10` concatenate and clear the buffer (`processBufferedAudio`)
and emit `audioReady` with the concatenated bytes. -/
def processAudioChunk (st : AudioState) (chunk : List Nat) :
    AudioState × List AudioEvent :=
  if !st.isProcessing then (st, [])
  else
    let st1 : AudioState := { st with audioBuffer := st.audioBuffer ++ [chunk] }
    if CHUNK_SIZE * 10 ≤ getTotalBufferSize st1 then
      ({ st1 with audioBuffer := [] },
       [.audioLevelEmitted chunk, .audioReady st1.audioBuffer.flatten])
    else (st1, [.audioLevelEmitted chunk])

/-- Feed a sequence of chunks through `processAudioChunk`, accumulating
the emitted events in order. -/
def runChunks : AudioState → List (List Nat) → AudioState × List AudioEvent
  | st, [] => (st, [])
  | st, c :: cs =>
    let r1 := processAudioChunk st c
    let r2 := runChunks r1.1 cs
    (r2.1, r1.2 ++ r2.2)

/-- The payloads of the `audioReady` events among a list of events. -/
def readyPayloads (evs : List AudioEvent) : List (List Nat) :=
  evs.filterMap fun e =>
    match e with
    | .audioReady d => some d
    | _ => none

/-- The public operations of the audio buffer engine, for stating
reachability invariants. -/
inductive AudioOp where
  | start
  | stop
  | chunk (bytes : List Nat)
deriving Repr

/-- State after one operation (events discarded). -/
def applyAudioOp (st : AudioState) : AudioOp → AudioState
  | .start => (startProcessing st).1
  | .stop => (stopProcessing st).1
  | .chunk c => (processAudioChunk st c).1

/-- The state of a fresh `AudioProcessor`. -/
def initialAudioState : AudioState := {}

/-- State reached by a sequence of operations from a fresh processor. -/
def runAudioOps (ops : List AudioOp) : AudioState :=
  ops.foldl applyAudioOp initialAudioState

/-- The concrete chunk used by the C7 witness: 4096 zero bytes. -/
def zeroChunk : List Nat := List.replicate 4096 0

/-! ## Concrete scenario data for counterexamples and witnesses -/

/-- Collaborator oracles for a run where every external call succeeds. -/
def demoEnv : OrchEnv :=
  ⟨some "ai-speaker", .ok ("Sure thing!", 1), .ok "QUJD", true,
   .jobj [("voiceType", .jstr "energetic-podcaster")]⟩

/-- Collaborator oracles for a run where `generateAIResponse` throws. -/
def failEnv : OrchEnv :=
  ⟨some "ai-speaker", .error "OpenAI API error", .ok "QUJD", true, .jobj []⟩

/-- A desktop connection joined to session `"s1"`. -/
def desktopA : Client :=
  { clientId := "a", sessionId := .jstr "s1", clientType := .jstr "desktop" }

/-- A browser connection joined to session `"s1"`. -/
def browserB : Client :=
  { clientId := "b", sessionId := .jstr "s1", clientType := .jstr "browser" }

/-- A fresh, pre-join connection. -/
def freshD : Client := { clientId := "d" }

/-- A typed `requestAIResponse` frame. -/
def reqMsg : JVal :=
  .jobj [("type", .jstr "requestAIResponse"), ("source", .jstr "browser"),
         ("timestamp", .jstr "2025-01-01T00:00:00Z"), ("transcript", .jstr "hi")]

/-- A typed `joinSession` frame carrying `sessionId`/`clientType`/`isHost`
both at top level (legacy position) and inside `data` (typed position),
with different values in the two positions. -/
def joinBothMsg : JVal :=
  .jobj [("type", .jstr "joinSession"), ("source", .jstr "browser"),
         ("timestamp", .jstr "2025-01-01T00:00:00Z"),
         ("sessionId", .jstr "top-level-session"),
         ("clientType", .jstr "browser"), ("isHost", .jbool true),
         ("data", .jobj [("sessionId", .jstr "typed-session"),
                         ("clientType", .jstr "desktop"), ("isHost", .jbool false)])]

/-- A typed `desktop_connect` frame for session `"s1"`. -/
def dcMsg : JVal :=
  .jobj [("type", .jstr "desktop_connect"), ("source", .jstr "desktop"),
         ("timestamp", .jstr "2025-01-01T00:00:00Z"),
         ("data", .jobj [("sessionId", .jstr "s1")])]

/-- A typed `transcript` frame. -/
def transcriptMsg : JVal :=
  .jobj [("type", .jstr "transcript"), ("source", .jstr "desktop"),
         ("timestamp", .jstr "2025-01-01T00:00:00Z"),
         ("data", .jobj [("text", .jstr "hello"), ("confidence", .jnum 1)])]

/-- A typed `hotkey` frame with an unrecognized command. -/
def hotkeyMsg : JVal :=
  .jobj [("type", .jstr "hotkey"), ("source", .jstr "browser"),
         ("timestamp", .jstr "2025-01-01T00:00:00Z"),
         ("key", .jstr "F1"), ("command", .jstr "unknownCommand")]

/-- A legacy `status` frame (no `source`, no `timestamp`). -/
def legacyStatusMsg : JVal :=
  .jobj [("type", .jstr "status"), ("status", .jstr "x")]

/-- A legacy frame whose `data` field is present but `null` (falsy). -/
def legacyNullDataMsg : JVal :=
  .jobj [("type", .jstr "status"), ("data", .jnull)]

/-- A typed `joinSession` frame into session `"s1"`. -/
def joinS1Msg : JVal :=
  .jobj [("type", .jstr "joinSession"), ("source", .jstr "browser"),
         ("timestamp", .jstr "2025-01-01T00:00:00Z"), ("sessionId", .jstr "s1"),
         ("clientType", .jstr "browser"), ("isHost", .jbool false)]

/-- The closed enumeration of typed message kinds whose router paths build
complete envelopes. -/
def typedTypes : List String :=
  ["joinSession", "desktop_connect", "transcript", "ai_response",
   "control_command", "audio_levels", "status"]

/-! ## Helper lemmas -/

theorem jDefined_of_jTruthy {v : JVal} (h : jTruthy v = true) : jDefined v = true := by
  cases v <;> simp_all [jTruthy, jDefined]

theorem jDefined_jsOr {a b : JVal} (hb : jDefined b = true) :
    jDefined (jsOr a b) = true := by
  unfold jsOr
  split
  · exact jDefined_of_jTruthy (by assumption)
  · exact hb

theorem eq_of_mem_of_nodup_keys {l : List Client}
    (hnd : (l.map Client.clientId).Nodup) {a b : Client}
    (ha : a ∈ l) (hb : b ∈ l) (hk : a.clientId = b.clientId) : a = b := by
  induction l with
  | nil => cases ha
  | cons x xs ih =>
    rw [List.map_cons, List.nodup_cons] at hnd
    rcases List.mem_cons.mp ha with rfl | ha2 <;>
      rcases List.mem_cons.mp hb with rfl | hb2
    · rfl
    · exact absurd (by rw [hk]; exact List.mem_map_of_mem Client.clientId hb2) hnd.1
    · exact absurd (by rw [← hk]; exact List.mem_map_of_mem Client.clientId ha2) hnd.1
    · exact ih hnd.2 ha2 hb2

theorem handleWebSocketMessage_found (env : OrchEnv) (clients : List Client)
    (cid : String) (msg : JVal) (now : Int) {c : Client}
    (hfind : clients.find? (fun x => x.clientId == cid) = some c)
    (hopen : c.wsOpen = true) :
    handleWebSocketMessage env clients cid msg now =
      routeMessage env clients c (normalizeMessage c msg now) now := by
  unfold handleWebSocketMessage
  rw [hfind]
  simp only [hopen, if_true]

theorem routeMessage_eq_joinSession (env : OrchEnv) (clients : List Client)
    (c : Client) (msg : JVal) (now : Int)
    (h : jGet msg "type" = some (.jstr "joinSession")) :
    routeMessage env clients c msg now = handleJoinSession clients c msg now := by
  unfold routeMessage; rw [h]; rfl

theorem routeMessage_eq_desktopConnect (env : OrchEnv) (clients : List Client)
    (c : Client) (msg : JVal) (now : Int)
    (h : jGet msg "type" = some (.jstr "desktop_connect")) :
    routeMessage env clients c msg now = handleDesktopConnect clients c msg now := by
  unfold routeMessage; rw [h]; rfl

theorem routeMessage_eq_transcript (env : OrchEnv) (clients : List Client)
    (c : Client) (msg : JVal) (now : Int)
    (h : jGet msg "type" = some (.jstr "transcript")) :
    routeMessage env clients c msg now = handleTranscript clients c msg now := by
  unfold routeMessage; rw [h]; rfl

theorem routeMessage_eq_aiResponseForward (env : OrchEnv) (clients : List Client)
    (c : Client) (msg : JVal) (now : Int)
    (h : jGet msg "type" = some (.jstr "ai_response")) :
    routeMessage env clients c msg now = handleAiResponseForward clients c msg now := by
  unfold routeMessage; rw [h]; rfl

theorem routeMessage_eq_controlCommand (env : OrchEnv) (clients : List Client)
    (c : Client) (msg : JVal) (now : Int)
    (h : jGet msg "type" = some (.jstr "control_command")) :
    routeMessage env clients c msg now = handleControlCommand clients c msg now := by
  unfold routeMessage; rw [h]; rfl

theorem routeMessage_eq_audioLevels (env : OrchEnv) (clients : List Client)
    (c : Client) (msg : JVal) (now : Int)
    (h : jGet msg "type" = some (.jstr "audio_levels")) :
    routeMessage env clients c msg now = handleAudioLevels clients c msg now := by
  unfold routeMessage; rw [h]; rfl

theorem routeMessage_eq_status (env : OrchEnv) (clients : List Client)
    (c : Client) (msg : JVal) (now : Int)
    (h : jGet msg "type" = some (.jstr "status")) :
    routeMessage env clients c msg now = handleStatus clients c msg now := by
  unfold routeMessage; rw [h]; rfl

theorem routeMessage_eq_requestAIResponse (env : OrchEnv) (clients : List Client)
    (c : Client) (msg : JVal) (now : Int)
    (h : jGet msg "type" = some (.jstr "requestAIResponse")) :
    routeMessage env clients c msg now =
      ⟨clients, (handleAIResponseRequest env clients c msg).1,
       (handleAIResponseRequest env clients c msg).2⟩ := by
  unfold routeMessage; rw [h]; rfl

theorem routeMessage_eq_hotkey (env : OrchEnv) (clients : List Client)
    (c : Client) (msg : JVal) (now : Int)
    (h : jGet msg "type" = some (.jstr "hotkey")) :
    routeMessage env clients c msg now =
      ⟨clients, (handleHotkey env clients c msg).1, (handleHotkey env clients c msg).2⟩ := by
  unfold routeMessage; rw [h]; rfl

theorem mem_broadcastToSession {clients : List Client} {sid payload : JVal}
    {ex : Option String} {p : Send}
    (hp : p ∈ broadcastToSession clients sid payload ex) :
    ∃ b ∈ clients, b.sessionId = sid ∧ b.wsOpen = true ∧ ex ≠ some b.clientId ∧
      p = (b.clientId, payload) := by
  unfold broadcastToSession at hp
  rcases List.mem_map.mp hp with ⟨b, hbf, rfl⟩
  rcases List.mem_filter.mp hbf with ⟨hb, hcond⟩
  simp only [Bool.and_eq_true, beq_iff_eq, bne_iff_ne, ne_eq] at hcond
  exact ⟨b, hb, hcond.1.1, hcond.1.2, hcond.2, rfl⟩

theorem mem_broadcastToBrowserClients {clients : List Client} {sid payload : JVal}
    {p : Send} (hp : p ∈ broadcastToBrowserClients clients sid payload) :
    ∃ b ∈ clients, b.sessionId = sid ∧ isStr b.clientType "browser" = true ∧
      b.wsOpen = true ∧ p = (b.clientId, payload) := by
  unfold broadcastToBrowserClients at hp
  rcases List.mem_map.mp hp with ⟨b, hbf, rfl⟩
  rcases List.mem_filter.mp hbf with ⟨hb, hcond⟩
  simp only [Bool.and_eq_true, beq_iff_eq] at hcond
  exact ⟨b, hb, hcond.1.1, hcond.1.2, hcond.2, rfl⟩

theorem mem_broadcastToDesktopClients {clients : List Client} {sid payload : JVal}
    {p : Send} (hp : p ∈ broadcastToDesktopClients clients sid payload) :
    ∃ b ∈ clients, b.sessionId = sid ∧ isStr b.clientType "desktop" = true ∧
      b.wsOpen = true ∧ p = (b.clientId, payload) := by
  unfold broadcastToDesktopClients at hp
  rcases List.mem_map.mp hp with ⟨b, hbf, rfl⟩
  rcases List.mem_filter.mp hbf with ⟨hb, hcond⟩
  simp only [Bool.and_eq_true, beq_iff_eq] at hcond
  exact ⟨b, hb, hcond.1.1, hcond.1.2, hcond.2, rfl⟩

theorem self_mem_broadcastToSession {clients : List Client} {c : Client}
    {payload : JVal} (hc : c ∈ clients) (hopen : c.wsOpen = true) :
    (c.clientId, payload) ∈ broadcastToSession clients c.sessionId payload none := by
  unfold broadcastToSession
  refine List.mem_map_of_mem _ (List.mem_filter.mpr ⟨hc, ?_⟩)
  simp [hopen]

theorem broadcastToSession_exclude_ne {clients : List Client} {sid payload : JVal}
    {x : String} {p : Send}
    (hp : p ∈ broadcastToSession clients sid payload (some x)) : p.1 ≠ x := by
  rcases mem_broadcastToSession hp with ⟨b, _, _, _, hex, rfl⟩
  intro h
  exact hex (congrArg some h.symm)

theorem count_broadcastToBrowserClients_eq_one {clients : List Client}
    {sid payload : JVal} {b : Client}
    (hnd : (clients.map Client.clientId).Nodup) (hb : b ∈ clients)
    (hsess : b.sessionId = sid) (hkind : isStr b.clientType "browser" = true)
    (hopen : b.wsOpen = true) :
    ((broadcastToBrowserClients clients sid payload).map Prod.fst).count b.clientId = 1 := by
  unfold broadcastToBrowserClients
  rw [List.map_map]
  have hfn : (Prod.fst ∘ fun c : Client => (c.clientId, payload)) = Client.clientId := rfl
  rw [hfn]
  refine List.count_eq_one_of_mem (List.Nodup.sublist ?_ hnd) ?_
  · exact (List.filter_sublist _).map _
  · exact List.mem_map_of_mem _ (List.mem_filter.mpr ⟨hb, by simp [hsess, hkind, hopen]⟩)

theorem count_broadcastToBrowserClients_eq_zero {clients : List Client}
    {sid payload : JVal} {x : String}
    (h : ∀ b ∈ clients, b.clientId = x →
      (b.sessionId == sid && isStr b.clientType "browser" && b.wsOpen) = false) :
    ((broadcastToBrowserClients clients sid payload).map Prod.fst).count x = 0 := by
  unfold broadcastToBrowserClients
  rw [List.map_map, List.count_eq_zero]
  intro hx
  rcases List.mem_map.mp hx with ⟨b, hbf, hid⟩
  rcases List.mem_filter.mp hbf with ⟨hb, hcond⟩
  rw [h b hb hid] at hcond
  cases hcond

theorem eq_jstr_of_isStr : ∀ {v : JVal} {s : String}, isStr v s = true → v = .jstr s
  | .jstr t, _, h => by rw [eq_of_beq h]
  | .jundefined, _, h => by simp [isStr] at h
  | .jnull, _, h => by simp [isStr] at h
  | .jbool _, _, h => by simp [isStr] at h
  | .jnum _, _, h => by simp [isStr] at h
  | .jobj _, _, h => by simp [isStr] at h

theorem fullEnvelope_forwardEnvelope {t src : String} {msg : JVal} {now : Int}
    (hdata : jDefined (jField msg "data") = true) :
    fullEnvelope (forwardEnvelope t src msg now) = true := by
  show (jDefined (JVal.jstr t) && jDefined (JVal.jstr src) &&
    jDefined (jField msg "data") &&
    jDefined (jsOr (jField msg "timestamp") (.jnum now))) = true
  rw [hdata, jDefined_jsOr (b := .jnum now) rfl]
  rfl

theorem fullEnvelope_statusForward {msg ct : JVal} {now : Int}
    (hdata : jDefined (jField msg "data") = true) :
    fullEnvelope (.jobj [("type", .jstr "status"),
      ("source", jsOr (jsOr (jField msg "source") ct) (.jstr "browser")),
      ("data", jField msg "data"),
      ("timestamp", jsOr (jField msg "timestamp") (.jnum now))]) = true := by
  show (jDefined (JVal.jstr "status") &&
    jDefined (jsOr (jsOr (jField msg "source") ct) (.jstr "browser")) &&
    jDefined (jField msg "data") &&
    jDefined (jsOr (jField msg "timestamp") (.jnum now))) = true
  rw [hdata, jDefined_jsOr (b := .jstr "browser") rfl,
    jDefined_jsOr (b := .jnum now) rfl]
  rfl

theorem clientId_of_find {clients : List Client} {cid : String} {c : Client}
    (hfind : clients.find? (fun x => x.clientId == cid) = some c) :
    c ∈ clients ∧ c.clientId = cid := by
  have hp := @List.find?_some Client (fun x => x.clientId == cid) c clients hfind
  exact ⟨List.mem_of_find?_eq_some hfind, eq_of_beq hp⟩

theorem aiRequest_send_shapes (env : OrchEnv) (clients : List Client)
    (c : Client) (m : JVal) {p : Send}
    (hp : p ∈ (handleAIResponseRequest env clients c m).1) :
    (∃ e, p.2 = orchErrorReply e) ∨
    (∃ response confidence aiId audio,
      p.2 = aiResponsePayload c response confidence aiId audio) := by
  unfold handleAIResponseRequest at hp
  cases hsid : jTruthy c.sessionId
  · rw [hsid] at hp
    simp at hp
  · rw [hsid] at hp
    simp only [Bool.not_true, Bool.false_eq_true, if_false] at hp
    rcases hgen : env.generate with e | ⟨resp, conf⟩ <;> rw [hgen] at hp <;>
      dsimp only at hp
    · rw [List.mem_singleton] at hp
      exact Or.inl ⟨e, by rw [hp]⟩
    · rcases hai : env.aiSpeakerId with _ | aiId <;> rw [hai] at hp <;>
        dsimp only at hp
      · simp at hp
      · rcases hsyn : env.synthesize with e2 | audio <;> rw [hsyn] at hp <;>
          dsimp only at hp
        · rw [List.mem_singleton] at hp
          exact Or.inl ⟨e2, by rw [hp]⟩
        · rcases mem_broadcastToSession hp with ⟨b, _, _, _, _, rfl⟩
          exact Or.inr ⟨resp, conf, aiId, audio, rfl⟩

theorem hotkey_send_shapes (env : OrchEnv) (clients : List Client)
    (c : Client) (m : JVal) {p : Send}
    (hp : p ∈ (handleHotkey env clients c m).1) :
    p.2 = hotkeyEnvelope m ∨ (∃ e, p.2 = orchErrorReply e) ∨
    (∃ response confidence aiId audio,
      p.2 = aiResponsePayload c response confidence aiId audio) := by
  unfold handleHotkey at hp
  cases hsid : jTruthy c.sessionId
  · rw [hsid] at hp
    simp at hp
  · rw [hsid] at hp
    simp only [Bool.not_true, Bool.false_eq_true, if_false] at hp
    rcases hcmd : hotkeyTranscript (jField m "command") with _ | t <;>
      rw [hcmd] at hp <;> dsimp only at hp
    · rcases mem_broadcastToSession hp with ⟨b, _, _, _, _, rfl⟩
      exact Or.inl rfl
    · rcases List.mem_append.mp hp with h1 | h2
      · rcases mem_broadcastToSession h1 with ⟨b, _, _, _, _, rfl⟩
        exact Or.inl rfl
      · exact Or.inr (aiRequest_send_shapes env clients c _ h2)

theorem personality_send_shape (env : OrchEnv) (clients : List Client)
    (c : Client) (m : JVal) {p : Send}
    (hp : p ∈ (handlePersonalityUpdate env clients c m).1) :
    p.2 = .jobj [("type", .jstr "personalityUpdated"),
      ("data", env.upsertedPersonality)] := by
  unfold handlePersonalityUpdate at hp
  cases hsid : jTruthy c.sessionId
  · rw [hsid] at hp
    simp at hp
  · rw [hsid] at hp
    simp only [Bool.not_true, Bool.false_eq_true, if_false] at hp
    rcases mem_broadcastToSession hp with ⟨b, _, _, _, _, rfl⟩
    rfl

theorem processAudioChunk_bound (st : AudioState) (c : List Nat)
    (h : getTotalBufferSize st < CHUNK_SIZE * 10) :
    getTotalBufferSize (processAudioChunk st c).1 < CHUNK_SIZE * 10 := by
  unfold processAudioChunk
  split
  · exact h
  · dsimp only
    split
    · simp [getTotalBufferSize, CHUNK_SIZE]
    · next hlt =>
        dsimp only
        omega

theorem applyAudioOp_bound (st : AudioState) (op : AudioOp)
    (h : getTotalBufferSize st < CHUNK_SIZE * 10) :
    getTotalBufferSize (applyAudioOp st op) < CHUNK_SIZE * 10 := by
  cases op with
  | start => simpa [applyAudioOp, startProcessing, getTotalBufferSize] using h
  | stop => simp [applyAudioOp, stopProcessing, getTotalBufferSize, CHUNK_SIZE]
  | chunk c => exact processAudioChunk_bound st c h

theorem foldl_audioOps_bound (ops : List AudioOp) (st : AudioState)
    (h : getTotalBufferSize st < CHUNK_SIZE * 10) :
    getTotalBufferSize (ops.foldl applyAudioOp st) < CHUNK_SIZE * 10 := by
  induction ops generalizing st with
  | nil => exact h
  | cons op ops ih => exact ih _ (applyAudioOp_bound st op h)

/-! ## Claims -/

/-- C9: after every return of `processAudioChunk` the buffered byte total
is strictly below `CHUNK_SIZE * 10 = 40960`: the bound is preserved by
each single call and holds in every state the audio engine can reach from
a fresh processor by any sequence of `startProcessing` /
`stopProcessing` / `processAudioChunk` operations. -/
theorem audio_buffer_always_below_threshold :
    (∀ ops : List AudioOp, getTotalBufferSize (runAudioOps ops) < CHUNK_SIZE * 10) ∧
    (∀ (st : AudioState) (c : List Nat), getTotalBufferSize st < CHUNK_SIZE * 10 →
      getTotalBufferSize (processAudioChunk st c).1 < CHUNK_SIZE * 10) := by
  constructor
  · intro ops
    apply foldl_audioOps_bound
    simp [initialAudioState, getTotalBufferSize, CHUNK_SIZE]
  · exact processAudioChunk_bound

/-- Witness for C9 at concrete inputs. -/
theorem audio_buffer_always_below_threshold_witness :
    getTotalBufferSize (runAudioOps [.start, .chunk [1, 2, 3]]) < CHUNK_SIZE * 10 ∧
    getTotalBufferSize (processAudioChunk ⟨true, [[1]]⟩ [2]).1 < CHUNK_SIZE * 10 :=
  ⟨audio_buffer_always_below_threshold.1 [.start, .chunk [1, 2, 3]],
   audio_buffer_always_below_threshold.2 ⟨true, [[1]]⟩ [2] (by decide)⟩

/-- C7: from an empty accumulator with processing enabled, feeding exactly
ten chunks of `CHUNK_SIZE = 4096` bytes leaves the buffered size at `0`
and emits `audioReady` exactly once, with payload the in-order
concatenation of the ten chunks; no `audioReady` fires during the first
nine chunks. -/
theorem audio_ten_chunks_flush_once
    (c0 c1 c2 c3 c4 c5 c6 c7 c8 c9 : List Nat)
    (h0 : c0.length = 4096) (h1 : c1.length = 4096) (h2 : c2.length = 4096)
    (h3 : c3.length = 4096) (h4 : c4.length = 4096) (h5 : c5.length = 4096)
    (h6 : c6.length = 4096) (h7 : c7.length = 4096) (h8 : c8.length = 4096)
    (h9 : c9.length = 4096) :
    getTotalBufferSize
        (runChunks ⟨true, []⟩ [c0, c1, c2, c3, c4, c5, c6, c7, c8, c9]).1 = 0 ∧
    readyPayloads (runChunks ⟨true, []⟩ [c0, c1, c2, c3, c4, c5, c6, c7, c8, c9]).2 =
      [c0 ++ c1 ++ c2 ++ c3 ++ c4 ++ c5 ++ c6 ++ c7 ++ c8 ++ c9] ∧
    readyPayloads (runChunks ⟨true, []⟩ [c0, c1, c2, c3, c4, c5, c6, c7, c8]).2 = [] := by
  simp [runChunks, processAudioChunk, getTotalBufferSize, CHUNK_SIZE, readyPayloads,
    h0, h1, h2, h3, h4, h5, h6, h7, h8, h9]

/-- C4: a `transcript` frame from a joined desktop connection is forwarded
exactly once to every open browser connection of its session and to no
other connection — every send targets a browser member of the session and
the sending desktop connection itself receives nothing; a `transcript`
frame from a browser connection produces no sends at all. -/
theorem transcript_routing
    (env : OrchEnv) (clients : List Client) (cid : String) (msg : JVal)
    (now : Int) (c : Client)
    (hnd : (clients.map Client.clientId).Nodup)
    (hfind : clients.find? (fun x => x.clientId == cid) = some c)
    (hopen : c.wsOpen = true)
    (htype : jGet (normalizeMessage c msg now) "type" = some (.jstr "transcript")) :
    (c.clientType = .jstr "desktop" → jTruthy c.sessionId = true →
      (∀ b ∈ clients, b.sessionId = c.sessionId → b.clientType = .jstr "browser" →
        b.wsOpen = true →
        ((handleWebSocketMessage env clients cid msg now).sends.map Prod.fst).count
          b.clientId = 1) ∧
      (∀ p ∈ (handleWebSocketMessage env clients cid msg now).sends,
        p.2 = forwardEnvelope "transcript" "desktop" (normalizeMessage c msg now) now ∧
        ∃ b ∈ clients, p.1 = b.clientId ∧ b.clientType = .jstr "browser" ∧
          b.sessionId = c.sessionId) ∧
      ((handleWebSocketMessage env clients cid msg now).sends.map Prod.fst).count
        cid = 0) ∧
    (c.clientType = .jstr "browser" →
      (handleWebSocketMessage env clients cid msg now).sends = []) := by
  obtain ⟨hcmem, hcid⟩ := clientId_of_find hfind
  rw [handleWebSocketMessage_found env clients cid msg now hfind hopen,
    routeMessage_eq_transcript env clients c _ now htype]
  constructor
  · intro hdesk hsid
    rw [handleTranscript, hdesk]
    have hcond : (isStr (JVal.jstr "desktop") "desktop" && jTruthy c.sessionId) = true := by
      rw [hsid]; rfl
    rw [if_pos hcond]
    refine ⟨?_, ?_, ?_⟩
    · intro b hb hbs hbk hbo
      exact count_broadcastToBrowserClients_eq_one hnd hb hbs
        (by rw [hbk]; rfl) hbo
    · intro p hp
      rcases mem_broadcastToBrowserClients hp with ⟨b, hb, hbs, hbk, hbo, rfl⟩
      exact ⟨rfl, b, hb, rfl, eq_jstr_of_isStr hbk, hbs⟩
    · apply count_broadcastToBrowserClients_eq_zero
      intro b hb hbid
      have hbc : b = c := eq_of_mem_of_nodup_keys hnd hb hcmem (by rw [hbid, hcid])
      rw [hbc, hdesk]
      simp [isStr]
  · intro hbrow
    rw [handleTranscript, hbrow]
    simp [isStr]

/-- Witness for C4: desktop connection `"a"` sends a typed transcript in
session `"s1"` shared with browser connection `"b"`. -/
theorem transcript_routing_witness :
    (desktopA.clientType = .jstr "desktop" → jTruthy desktopA.sessionId = true →
      (∀ b ∈ [desktopA, browserB], b.sessionId = desktopA.sessionId →
        b.clientType = .jstr "browser" → b.wsOpen = true →
        ((handleWebSocketMessage demoEnv [desktopA, browserB] "a" transcriptMsg 5).sends.map
          Prod.fst).count b.clientId = 1) ∧
      (∀ p ∈ (handleWebSocketMessage demoEnv [desktopA, browserB] "a" transcriptMsg 5).sends,
        p.2 = forwardEnvelope "transcript" "desktop"
          (normalizeMessage desktopA transcriptMsg 5) 5 ∧
        ∃ b ∈ [desktopA, browserB], p.1 = b.clientId ∧ b.clientType = .jstr "browser" ∧
          b.sessionId = desktopA.sessionId) ∧
      ((handleWebSocketMessage demoEnv [desktopA, browserB] "a" transcriptMsg 5).sends.map
        Prod.fst).count "a" = 0) ∧
    (desktopA.clientType = .jstr "browser" →
      (handleWebSocketMessage demoEnv [desktopA, browserB] "a" transcriptMsg 5).sends = []) :=
  transcript_routing demoEnv [desktopA, browserB] "a" transcriptMsg 5 desktopA
    (by decide) rfl rfl rfl

/-- C5 counterexample: a legacy frame whose nested `data` field is present
but `null` is normalized with the whole frame as payload, not with the
present nested field — the `||` fallback tests truthiness, not
presence. -/
theorem normalization_data_presence_counterexample :
    jField (normalizeMessage freshD legacyNullDataMsg 5) "data" = legacyNullDataMsg ∧
    jGet legacyNullDataMsg "data" = some .jnull ∧
    legacyNullDataMsg ≠ .jnull :=
  ⟨rfl, rfl, by decide⟩

/-- C5 amended: normalizing an inbound frame that lacks (truthy) `source`
and `timestamp` keeps its `type`, synthesizes `source` from the
connection's recorded `clientType` with `"browser"` as the pre-join
default, uses the frame's nested `data` field as payload when present and
truthy (a present but falsy `data`, e.g. `null`, falls back to the whole
frame) and otherwise the whole frame, and stamps the handling instant
`now`, which is no earlier than the frame's arrival. -/
theorem legacy_normalization
    (c : Client) (msg : JVal) (now arrival : Int)
    (hsrc : jTruthy (jField msg "source") = false)
    (hts : jTruthy (jField msg "timestamp") = false)
    (harr : arrival ≤ now) :
    jField (normalizeMessage c msg now) "type" = jField msg "type" ∧
    jField (normalizeMessage c msg now) "source" = jsOr c.clientType (.jstr "browser") ∧
    (c.clientType = .jundefined →
      jField (normalizeMessage c msg now) "source" = .jstr "browser") ∧
    jField (normalizeMessage c msg now) "data" =
      (if jTruthy (jField msg "data") = true then jField msg "data" else msg) ∧
    (∃ t : Int, jField (normalizeMessage c msg now) "timestamp" = .jnum t ∧
      arrival ≤ t) := by
  have hn : normalizeMessage c msg now =
      .jobj [("type", jField msg "type"),
             ("source", jsOr c.clientType (.jstr "browser")),
             ("data", jsOr (jField msg "data") msg),
             ("timestamp", .jnum now)] := by
    unfold normalizeMessage
    rw [hsrc, hts]
    rfl
  rw [hn]
  refine ⟨rfl, rfl, ?_, ?_, now, rfl, harr⟩
  · intro h
    rw [show jField (JVal.jobj
      [("type", jField msg "type"),
       ("source", jsOr c.clientType (.jstr "browser")),
       ("data", jsOr (jField msg "data") msg),
       ("timestamp", .jnum now)]) "source" = jsOr c.clientType (.jstr "browser") from rfl, h]
    rfl
  · rfl

/-- Witness for C5: the spec's example — normalizing the legacy frame
`{type:"status", status:"x"}` on a pre-join connection at instant 5
(arrival 3) yields `data.status = "x"` and timestamp 5. -/
theorem legacy_normalization_witness :
    (jField (normalizeMessage freshD legacyStatusMsg 5) "type" =
        jField legacyStatusMsg "type" ∧
      jField (normalizeMessage freshD legacyStatusMsg 5) "source" =
        jsOr freshD.clientType (.jstr "browser") ∧
      (freshD.clientType = .jundefined →
        jField (normalizeMessage freshD legacyStatusMsg 5) "source" = .jstr "browser") ∧
      jField (normalizeMessage freshD legacyStatusMsg 5) "data" =
        (if jTruthy (jField legacyStatusMsg "data") = true then
          jField legacyStatusMsg "data" else legacyStatusMsg) ∧
      (∃ t : Int, jField (normalizeMessage freshD legacyStatusMsg 5) "timestamp" =
        .jnum t ∧ (3 : Int) ≤ t)) ∧
    jField (jField (normalizeMessage freshD legacyStatusMsg 5) "data") "status" =
      .jstr "x" :=
  ⟨legacy_normalization freshD legacyStatusMsg 5 3 rfl rfl (by decide), rfl⟩

/-- C2 counterexample: a typed `joinSession` frame carrying
`sessionId:"top-level-session"` at top level and
`data.sessionId:"typed-session"` gets recorded with the top-level value,
not the `data` (typed) value, so the typed form does not take
precedence. -/
theorem join_precedence_counterexample :
    (handleWebSocketMessage demoEnv [freshD] "d" joinBothMsg 5).clients.map
      Client.sessionId = [.jstr "top-level-session"] ∧
    jField (jField joinBothMsg "data") "sessionId" = .jstr "typed-session" ∧
    (JVal.jstr "top-level-session") ≠ .jstr "typed-session" :=
  ⟨rfl, rfl, by decide⟩

/-- C2 amended: the recorded values follow the JavaScript
`top-level || data` precedence on the post-normalization message — the
legacy top-level position wins over the typed `data` position when both
are present (for legacy frames, normalization discards the original top
level, so the `data` values are the ones recorded); `desktop_connect`
reads `sessionId` from `data` only and forces kind `desktop`. -/
theorem join_field_precedence
    (env : OrchEnv) (clients : List Client) (cid : String) (msg : JVal)
    (now : Int) (c : Client)
    (hfind : clients.find? (fun x => x.clientId == cid) = some c)
    (hopen : c.wsOpen = true) :
    (jGet (normalizeMessage c msg now) "type" = some (.jstr "joinSession") →
      (handleWebSocketMessage env clients cid msg now).clients =
        updateClient clients c.clientId (joinedClient c (normalizeMessage c msg now))) ∧
    (jGet (normalizeMessage c msg now) "type" = some (.jstr "desktop_connect") →
      (handleWebSocketMessage env clients cid msg now).clients =
        updateClient clients c.clientId (dcClient c (normalizeMessage c msg now))) := by
  rw [handleWebSocketMessage_found env clients cid msg now hfind hopen]
  constructor
  · intro htype
    rw [routeMessage_eq_joinSession env clients c _ now htype]
    unfold handleJoinSession
    dsimp only
    split <;> rfl
  · intro htype
    rw [routeMessage_eq_desktopConnect env clients c _ now htype]
    unfold handleDesktopConnect
    dsimp only
    split <;> rfl

/-- Witness for C2's amended theorem at the concrete two-position
`joinSession` frame. -/
theorem join_field_precedence_witness :
    (jGet (normalizeMessage freshD joinBothMsg 5) "type" = some (.jstr "joinSession") →
      (handleWebSocketMessage demoEnv [freshD] "d" joinBothMsg 5).clients =
        updateClient [freshD] freshD.clientId
          (joinedClient freshD (normalizeMessage freshD joinBothMsg 5))) ∧
    (jGet (normalizeMessage freshD joinBothMsg 5) "type" = some (.jstr "desktop_connect") →
      (handleWebSocketMessage demoEnv [freshD] "d" joinBothMsg 5).clients =
        updateClient [freshD] freshD.clientId
          (dcClient freshD (normalizeMessage freshD joinBothMsg 5))) :=
  join_field_precedence demoEnv [freshD] "d" joinBothMsg 5 freshD rfl rfl

/-- C3 counterexample: the joined desktop connection `"a"` sends
`requestAIResponse`; the AI orchestrator runs in full (generation,
message persistence, analytics) and an `aiResponse` broadcast goes out to
the session, although the sender's kind is not `browser`. -/
theorem request_role_counterexample :
    (handleWebSocketMessage demoEnv [desktopA, browserB] "a" reqMsg 5).events =
      [.generateCalled (.jstr "hi"), .messageCreated (.jstr "s1") "Sure thing!",
       .analyticsUpdated (.jstr "s1")] ∧
    (handleWebSocketMessage demoEnv [desktopA, browserB] "a" reqMsg 5).sends.map
      Prod.fst = ["a", "b"] ∧
    desktopA.clientType ≠ .jstr "browser" :=
  ⟨rfl, rfl, by decide⟩

/-- C3 amended: `requestAIResponse` is not role-checked — the only guard
is a truthy `sessionId` on the sending connection.  A pre-join
connection's request is dropped with no sends and no side effects, while
a joined connection of any recorded `clientType` (desktop included)
invokes the AI orchestrator: the text-generation collaborator is always
called. -/
theorem request_no_role_check
    (env : OrchEnv) (clients : List Client) (cid : String) (msg : JVal)
    (now : Int) (c : Client)
    (hfind : clients.find? (fun x => x.clientId == cid) = some c)
    (hopen : c.wsOpen = true)
    (htype : jGet (normalizeMessage c msg now) "type" =
      some (.jstr "requestAIResponse")) :
    (jTruthy c.sessionId = false →
      handleWebSocketMessage env clients cid msg now = ⟨clients, [], []⟩) ∧
    (jTruthy c.sessionId = true →
      (handleWebSocketMessage env clients cid msg now).events =
        (handleAIResponseRequest env clients c (normalizeMessage c msg now)).2 ∧
      Event.generateCalled
          (jsOr (jField (normalizeMessage c msg now) "transcript") (.jstr "")) ∈
        (handleWebSocketMessage env clients cid msg now).events) := by
  rw [handleWebSocketMessage_found env clients cid msg now hfind hopen,
    routeMessage_eq_requestAIResponse env clients c _ now htype]
  constructor
  · intro hsid
    unfold handleAIResponseRequest
    rw [hsid]
    rfl
  · intro hsid
    refine ⟨rfl, ?_⟩
    show Event.generateCalled _ ∈ (handleAIResponseRequest env clients c _).2
    unfold handleAIResponseRequest
    rw [hsid]
    dsimp only
    rcases env.generate with e | ⟨resp, conf⟩
    · simp
    · rcases hai : env.aiSpeakerId with _ | aiId
      · simp
      · rcases env.synthesize with e2 | audio
        · simp
        · by_cases han : env.analyticsPresent <;> simp [han]

/-- Witness for C3's amended theorem: the joined desktop connection
invokes the orchestrator; the same input also exercises the truthy-guard
branch. -/
theorem request_no_role_check_witness :
    (jTruthy desktopA.sessionId = false →
      handleWebSocketMessage demoEnv [desktopA, browserB] "a" reqMsg 5 =
        ⟨[desktopA, browserB], [], []⟩) ∧
    (jTruthy desktopA.sessionId = true →
      (handleWebSocketMessage demoEnv [desktopA, browserB] "a" reqMsg 5).events =
        (handleAIResponseRequest demoEnv [desktopA, browserB] desktopA
          (normalizeMessage desktopA reqMsg 5)).2 ∧
      Event.generateCalled
          (jsOr (jField (normalizeMessage desktopA reqMsg 5) "transcript") (.jstr "")) ∈
        (handleWebSocketMessage demoEnv [desktopA, browserB] "a" reqMsg 5).events) :=
  request_no_role_check demoEnv [desktopA, browserB] "a" reqMsg 5 desktopA rfl rfl rfl

/-- C8: when the AI text-generation collaborator throws during a
`requestAIResponse` handling sequence, the sequence aborts — the only
outbound frame is a single `error` reply carrying the failure reason,
sent to the originating connection alone; no `aiResponse` broadcast
happens, nothing is persisted, no analytics update runs, and the clients
map is untouched. -/
theorem orchestrator_failure_isolated
    (env : OrchEnv) (clients : List Client) (cid : String) (msg : JVal)
    (now : Int) (c : Client) (e : String)
    (hfind : clients.find? (fun x => x.clientId == cid) = some c)
    (hopen : c.wsOpen = true)
    (htype : jGet (normalizeMessage c msg now) "type" =
      some (.jstr "requestAIResponse"))
    (hsid : jTruthy c.sessionId = true)
    (hgen : env.generate = .error e) :
    (handleWebSocketMessage env clients cid msg now).sends =
      [(cid, orchErrorReply e)] ∧
    (handleWebSocketMessage env clients cid msg now).events =
      [.generateCalled (jsOr (jField (normalizeMessage c msg now) "transcript")
        (.jstr ""))] ∧
    (handleWebSocketMessage env clients cid msg now).clients = clients := by
  obtain ⟨hcmem, hcid⟩ := clientId_of_find hfind
  rw [handleWebSocketMessage_found env clients cid msg now hfind hopen,
    routeMessage_eq_requestAIResponse env clients c _ now htype]
  unfold handleAIResponseRequest
  rw [hsid, hgen, hcid]
  exact ⟨rfl, rfl, rfl⟩

/-- Witness for C8: browser `"b"` requests an AI response while the
generation collaborator throws `"OpenAI API error"`. -/
theorem orchestrator_failure_isolated_witness :
    (handleWebSocketMessage failEnv [desktopA, browserB] "b" reqMsg 5).sends =
      [("b", orchErrorReply "OpenAI API error")] ∧
    (handleWebSocketMessage failEnv [desktopA, browserB] "b" reqMsg 5).events =
      [.generateCalled (jsOr (jField (normalizeMessage browserB reqMsg 5) "transcript")
        (.jstr ""))] ∧
    (handleWebSocketMessage failEnv [desktopA, browserB] "b" reqMsg 5).clients =
      [desktopA, browserB] :=
  orchestrator_failure_isolated failEnv [desktopA, browserB] "b" reqMsg 5 browserB
    "OpenAI API error" rfl rfl rfl rfl rfl

/-- C10: a joined connection sending `hotkey` receives the resulting
`hotkeyTriggered` envelope itself — the sends begin with a
`broadcastToSession` carrying no exclusion, whose recipients include the
sender; by contrast, `broadcastToSession` with a sender exclusion (the
`status` broadcasts) never targets the excluded connection. -/
theorem hotkey_broadcast_includes_sender
    (env : OrchEnv) (clients : List Client) (cid : String) (msg : JVal)
    (now : Int) (c : Client)
    (hfind : clients.find? (fun x => x.clientId == cid) = some c)
    (hopen : c.wsOpen = true)
    (htype : jGet (normalizeMessage c msg now) "type" = some (.jstr "hotkey"))
    (hsid : jTruthy c.sessionId = true) :
    (∃ rest, (handleWebSocketMessage env clients cid msg now).sends =
      broadcastToSession clients c.sessionId
        (hotkeyEnvelope (normalizeMessage c msg now)) none ++ rest) ∧
    (cid, hotkeyEnvelope (normalizeMessage c msg now)) ∈
      (handleWebSocketMessage env clients cid msg now).sends ∧
    (∀ (payload : JVal) (p : Send),
      p ∈ broadcastToSession clients c.sessionId payload (some cid) → p.1 ≠ cid) := by
  obtain ⟨hcmem, hcid⟩ := clientId_of_find hfind
  rw [handleWebSocketMessage_found env clients cid msg now hfind hopen,
    routeMessage_eq_hotkey env clients c _ now htype]
  have hself : (cid, hotkeyEnvelope (normalizeMessage c msg now)) ∈
      broadcastToSession clients c.sessionId
        (hotkeyEnvelope (normalizeMessage c msg now)) none := by
    rw [← hcid]
    exact self_mem_broadcastToSession hcmem hopen
  unfold handleHotkey
  rw [hsid]
  dsimp only
  rcases hcmd : hotkeyTranscript (jField (normalizeMessage c msg now) "command") with
    _ | t
  · exact ⟨⟨[], by simp⟩, hself, fun payload p hp => broadcastToSession_exclude_ne hp⟩
  · exact ⟨⟨(handleAIResponseRequest env clients c
        (.jobj [("transcript", .jstr t)])).1, rfl⟩,
      List.mem_append_left _ hself,
      fun payload p hp => broadcastToSession_exclude_ne hp⟩

/-- Witness for C10: browser `"b"` sends a hotkey frame in session
`"s1"`. -/
theorem hotkey_broadcast_includes_sender_witness :
    (∃ rest, (handleWebSocketMessage demoEnv [desktopA, browserB] "b" hotkeyMsg 5).sends =
      broadcastToSession [desktopA, browserB] browserB.sessionId
        (hotkeyEnvelope (normalizeMessage browserB hotkeyMsg 5)) none ++ rest) ∧
    ("b", hotkeyEnvelope (normalizeMessage browserB hotkeyMsg 5)) ∈
      (handleWebSocketMessage demoEnv [desktopA, browserB] "b" hotkeyMsg 5).sends ∧
    (∀ (payload : JVal) (p : Send),
      p ∈ broadcastToSession [desktopA, browserB] browserB.sessionId payload
        (some "b") → p.1 ≠ "b") :=
  hotkey_broadcast_includes_sender demoEnv [desktopA, browserB] "b" hotkeyMsg 5
    browserB rfl rfl rfl rfl

/-- C6 counterexample: desktop connection `"d"` performs `desktop_connect`
into session `"s1"`, where desktop `"a"` and browser `"b"` already live.
The status broadcast reaches only the browser `"b"` — the desktop peer
`"a"`, another connection of the same session, receives nothing — and the
delivered `data` carries neither `clientType` nor `clientId`. -/
theorem join_status_counterexample :
    (handleWebSocketMessage demoEnv [desktopA, browserB, freshD] "d" dcMsg 5).sends.map
      Prod.fst = ["b"] ∧
    ((handleWebSocketMessage demoEnv [desktopA, browserB, freshD] "d" dcMsg 5).sends.all
      (fun p => (jGet (jField p.2 "data") "clientId").isNone &&
        (jGet (jField p.2 "data") "clientType").isNone)) = true :=
  ⟨rfl, rfl⟩

/-- C6 amended: on `joinSession` the router broadcasts a full
`status{client_connected, clientType, clientId}` envelope to every other
open connection of the session and never to the sender; on
`desktop_connect` the broadcast goes only to the browser connections of
the session and its `data` carries only `status` and `sessionId` —
no `clientType`/`clientId` fields and no delivery to non-browser peers. -/
theorem join_status_broadcasts
    (env : OrchEnv) (clients : List Client) (cid : String) (msg : JVal)
    (now : Int) (c : Client)
    (hfind : clients.find? (fun x => x.clientId == cid) = some c)
    (hopen : c.wsOpen = true) :
    (jGet (normalizeMessage c msg now) "type" = some (.jstr "joinSession") →
      jTruthy (joinSessionIdOf (normalizeMessage c msg now)) = true →
      (handleWebSocketMessage env clients cid msg now).sends =
        broadcastToSession
          (updateClient clients c.clientId (joinedClient c (normalizeMessage c msg now)))
          (joinSessionIdOf (normalizeMessage c msg now))
          (joinStatusEnvelope (joinClientTypeOf (normalizeMessage c msg now)) c.clientId now)
          (some c.clientId) ∧
      (∀ p ∈ (handleWebSocketMessage env clients cid msg now).sends, p.1 ≠ cid) ∧
      jGet (jField (joinStatusEnvelope (joinClientTypeOf (normalizeMessage c msg now))
        c.clientId now) "data") "clientId" = some (.jstr c.clientId) ∧
      jGet (jField (joinStatusEnvelope (joinClientTypeOf (normalizeMessage c msg now))
        c.clientId now) "data") "clientType" =
          some (joinClientTypeOf (normalizeMessage c msg now))) ∧
    (jGet (normalizeMessage c msg now) "type" = some (.jstr "desktop_connect") →
      jTruthy (dcSessionIdOf (normalizeMessage c msg now)) = true →
      (handleWebSocketMessage env clients cid msg now).sends =
        broadcastToBrowserClients
          (updateClient clients c.clientId (dcClient c (normalizeMessage c msg now)))
          (dcSessionIdOf (normalizeMessage c msg now))
          (desktopStatusEnvelope (dcSessionIdOf (normalizeMessage c msg now)) now) ∧
      (∀ p ∈ (handleWebSocketMessage env clients cid msg now).sends,
        ∃ b ∈ updateClient clients c.clientId (dcClient c (normalizeMessage c msg now)),
          p.1 = b.clientId ∧ b.clientType = .jstr "browser") ∧
      jGet (jField (desktopStatusEnvelope (dcSessionIdOf (normalizeMessage c msg now))
        now) "data") "clientId" = none ∧
      jGet (jField (desktopStatusEnvelope (dcSessionIdOf (normalizeMessage c msg now))
        now) "data") "clientType" = none) := by
  obtain ⟨hcmem, hcid⟩ := clientId_of_find hfind
  rw [handleWebSocketMessage_found env clients cid msg now hfind hopen]
  constructor
  · intro htype hsid
    rw [routeMessage_eq_joinSession env clients c _ now htype]
    have hsends : (handleJoinSession clients c (normalizeMessage c msg now) now).sends =
        broadcastToSession
          (updateClient clients c.clientId (joinedClient c (normalizeMessage c msg now)))
          (joinSessionIdOf (normalizeMessage c msg now))
          (joinStatusEnvelope (joinClientTypeOf (normalizeMessage c msg now)) c.clientId now)
          (some c.clientId) := by
      unfold handleJoinSession
      dsimp only
      rw [if_pos hsid]
    rw [hsends]
    refine ⟨rfl, ?_, rfl, rfl⟩
    intro p hp
    rw [← hcid]
    exact broadcastToSession_exclude_ne hp
  · intro htype hsid
    rw [routeMessage_eq_desktopConnect env clients c _ now htype]
    have hsends : (handleDesktopConnect clients c (normalizeMessage c msg now) now).sends =
        broadcastToBrowserClients
          (updateClient clients c.clientId (dcClient c (normalizeMessage c msg now)))
          (dcSessionIdOf (normalizeMessage c msg now))
          (desktopStatusEnvelope (dcSessionIdOf (normalizeMessage c msg now)) now) := by
      unfold handleDesktopConnect
      dsimp only
      rw [if_pos hsid]
    rw [hsends]
    refine ⟨rfl, ?_, rfl, rfl⟩
    intro p hp
    rcases mem_broadcastToBrowserClients hp with ⟨b, hb, _, hbk, _, rfl⟩
    exact ⟨b, hb, rfl, eq_jstr_of_isStr hbk⟩

/-- Witness for C6's amended theorem: fresh connection `"d"` joining
session `"s1"` (either via `joinSession` or `desktop_connect` frames). -/
theorem join_status_broadcasts_witness :
    (jGet (normalizeMessage freshD joinS1Msg 5) "type" = some (.jstr "joinSession") →
      jTruthy (joinSessionIdOf (normalizeMessage freshD joinS1Msg 5)) = true →
      (handleWebSocketMessage demoEnv [desktopA, browserB, freshD] "d" joinS1Msg 5).sends =
        broadcastToSession
          (updateClient [desktopA, browserB, freshD] freshD.clientId
            (joinedClient freshD (normalizeMessage freshD joinS1Msg 5)))
          (joinSessionIdOf (normalizeMessage freshD joinS1Msg 5))
          (joinStatusEnvelope (joinClientTypeOf (normalizeMessage freshD joinS1Msg 5))
            freshD.clientId 5)
          (some freshD.clientId) ∧
      (∀ p ∈ (handleWebSocketMessage demoEnv [desktopA, browserB, freshD] "d"
        joinS1Msg 5).sends, p.1 ≠ "d") ∧
      jGet (jField (joinStatusEnvelope (joinClientTypeOf (normalizeMessage freshD joinS1Msg 5))
        freshD.clientId 5) "data") "clientId" = some (.jstr freshD.clientId) ∧
      jGet (jField (joinStatusEnvelope (joinClientTypeOf (normalizeMessage freshD joinS1Msg 5))
        freshD.clientId 5) "data") "clientType" =
          some (joinClientTypeOf (normalizeMessage freshD joinS1Msg 5))) ∧
    (jGet (normalizeMessage freshD joinS1Msg 5) "type" = some (.jstr "desktop_connect") →
      jTruthy (dcSessionIdOf (normalizeMessage freshD joinS1Msg 5)) = true →
      (handleWebSocketMessage demoEnv [desktopA, browserB, freshD] "d" joinS1Msg 5).sends =
        broadcastToBrowserClients
          (updateClient [desktopA, browserB, freshD] freshD.clientId
            (dcClient freshD (normalizeMessage freshD joinS1Msg 5)))
          (dcSessionIdOf (normalizeMessage freshD joinS1Msg 5))
          (desktopStatusEnvelope (dcSessionIdOf (normalizeMessage freshD joinS1Msg 5)) 5) ∧
      (∀ p ∈ (handleWebSocketMessage demoEnv [desktopA, browserB, freshD] "d"
        joinS1Msg 5).sends,
        ∃ b ∈ updateClient [desktopA, browserB, freshD] freshD.clientId
          (dcClient freshD (normalizeMessage freshD joinS1Msg 5)),
          p.1 = b.clientId ∧ b.clientType = .jstr "browser") ∧
      jGet (jField (desktopStatusEnvelope (dcSessionIdOf
        (normalizeMessage freshD joinS1Msg 5)) 5) "data") "clientId" = none ∧
      jGet (jField (desktopStatusEnvelope (dcSessionIdOf
        (normalizeMessage freshD joinS1Msg 5)) 5) "data") "clientType" = none) :=
  join_status_broadcasts demoEnv [desktopA, browserB, freshD] "d" joinS1Msg 5
    freshD rfl rfl

/-- C1 counterexample: a successful `requestAIResponse` run broadcasts two
`aiResponse` envelopes (to desktop `"a"` and browser `"b"`), and each of
them lacks both the `source` and the `timestamp` field entirely — the
envelopes leaving the router on the AI-orchestrator path do not carry all
four fields. -/
theorem envelope_fields_counterexample :
    (handleWebSocketMessage demoEnv [desktopA, browserB] "b" reqMsg 5).sends.map
      Prod.fst = ["a", "b"] ∧
    ((handleWebSocketMessage demoEnv [desktopA, browserB] "b" reqMsg 5).sends.all
      (fun p => (jGet p.2 "source").isNone && (jGet p.2 "timestamp").isNone)) = true ∧
    ((handleWebSocketMessage demoEnv [desktopA, browserB] "b" reqMsg 5).sends.all
      (fun p => !(fullEnvelope p.2))) = true :=
  ⟨rfl, rfl, rfl⟩

/-- C1 amended: envelopes built on the typed protocol paths carry all
four fields populated — the `joinSession`/`desktop_connect` status
broadcasts, the `connected` greeting, the parse-error reply and the
disconnect status unconditionally, and the forwarded
`transcript`/`ai_response`/`control_command`/`audio_levels`/`status`
envelopes whenever the inbound frame carries a defined `data` payload;
the legacy paths do not: every frame sent by `handleAIResponseRequest`,
`handleHotkey` or `handlePersonalityUpdate` carries only `type` and
`data` (the orchestrator's error reply only `type` and `message`) and
lacks both `source` and `timestamp`. -/
theorem typed_paths_full_envelopes
    (env : OrchEnv) (clients : List Client) (cid : String) (msg : JVal)
    (now : Int) (c : Client)
    (hfind : clients.find? (fun x => x.clientId == cid) = some c)
    (hopen : c.wsOpen = true) :
    (∀ t : String, jGet (normalizeMessage c msg now) "type" = some (.jstr t) →
      t = "joinSession" ∨ t = "desktop_connect" →
      ∀ p ∈ (handleWebSocketMessage env clients cid msg now).sends,
        fullEnvelope p.2 = true) ∧
    (∀ t : String, jGet (normalizeMessage c msg now) "type" = some (.jstr t) →
      (t = "transcript" ∨ t = "ai_response" ∨ t = "control_command" ∨
        t = "audio_levels" ∨ t = "status") →
      jDefined (jField (normalizeMessage c msg now) "data") = true →
      ∀ p ∈ (handleWebSocketMessage env clients cid msg now).sends,
        fullEnvelope p.2 = true) ∧
    fullEnvelope (connectedEnvelope cid now) = true ∧
    (∀ e : String, fullEnvelope (parseErrorEnvelope e now) = true) ∧
    (∀ (xid : String) (p : Send), p ∈ (onClose clients xid now).2 →
      fullEnvelope p.2 = true) ∧
    (∀ (m : JVal) (p : Send), p ∈ (handleAIResponseRequest env clients c m).1 →
      (typeDataOnly p.2 = true ∨ typeMessageOnly p.2 = true) ∧
      jGet p.2 "source" = none ∧ jGet p.2 "timestamp" = none) ∧
    (∀ (m : JVal) (p : Send), p ∈ (handleHotkey env clients c m).1 →
      (typeDataOnly p.2 = true ∨ typeMessageOnly p.2 = true) ∧
      jGet p.2 "source" = none ∧ jGet p.2 "timestamp" = none) ∧
    (∀ (m : JVal) (p : Send), p ∈ (handlePersonalityUpdate env clients c m).1 →
      typeDataOnly p.2 = true ∧
      jGet p.2 "source" = none ∧ jGet p.2 "timestamp" = none) := by
  refine ⟨?_, ?_, rfl, fun e => rfl, ?_, ?_, ?_, ?_⟩
  · intro t htype ht2
    rw [handleWebSocketMessage_found env clients cid msg now hfind hopen]
    rcases ht2 with rfl | rfl
    · rw [routeMessage_eq_joinSession env clients c _ now htype]
      intro p hp
      unfold handleJoinSession at hp
      dsimp only at hp
      cases hsid : jTruthy (joinSessionIdOf (normalizeMessage c msg now)) <;>
        rw [hsid] at hp <;> simp at hp
      rcases mem_broadcastToSession hp with ⟨b, _, _, _, _, rfl⟩
      rfl
    · rw [routeMessage_eq_desktopConnect env clients c _ now htype]
      intro p hp
      unfold handleDesktopConnect at hp
      dsimp only at hp
      cases hsid : jTruthy (dcSessionIdOf (normalizeMessage c msg now)) <;>
        rw [hsid] at hp <;> simp at hp
      rcases mem_broadcastToBrowserClients hp with ⟨b, _, _, _, _, rfl⟩
      rfl
  · intro t htype ht5 hdata
    rw [handleWebSocketMessage_found env clients cid msg now hfind hopen]
    rcases ht5 with rfl | rfl | rfl | rfl | rfl
    · rw [routeMessage_eq_transcript env clients c _ now htype]
      intro p hp
      unfold handleTranscript at hp
      split at hp
      · rcases mem_broadcastToBrowserClients hp with ⟨b, _, _, _, _, rfl⟩
        exact fullEnvelope_forwardEnvelope hdata
      · simp at hp
    · rw [routeMessage_eq_aiResponseForward env clients c _ now htype]
      intro p hp
      unfold handleAiResponseForward at hp
      split at hp
      · rcases mem_broadcastToDesktopClients hp with ⟨b, _, _, _, _, rfl⟩
        exact fullEnvelope_forwardEnvelope hdata
      · simp at hp
    · rw [routeMessage_eq_controlCommand env clients c _ now htype]
      intro p hp
      unfold handleControlCommand at hp
      split at hp
      · rcases mem_broadcastToDesktopClients hp with ⟨b, _, _, _, _, rfl⟩
        exact fullEnvelope_forwardEnvelope hdata
      · simp at hp
    · rw [routeMessage_eq_audioLevels env clients c _ now htype]
      intro p hp
      unfold handleAudioLevels at hp
      split at hp
      · rcases mem_broadcastToBrowserClients hp with ⟨b, _, _, _, _, rfl⟩
        exact fullEnvelope_forwardEnvelope hdata
      · simp at hp
    · rw [routeMessage_eq_status env clients c _ now htype]
      intro p hp
      unfold handleStatus at hp
      split at hp
      · rcases mem_broadcastToSession hp with ⟨b, _, _, _, _, rfl⟩
        exact fullEnvelope_statusForward hdata
      · simp at hp
  · intro xid p hp
    unfold onClose at hp
    dsimp only at hp
    rcases hfx : clients.find? (fun y => y.clientId == xid) with _ | x <;>
      rw [hfx] at hp <;> dsimp only at hp
    · simp at hp
    · split at hp
      · rcases mem_broadcastToSession hp with ⟨b, _, _, _, _, rfl⟩
        rfl
      · simp at hp
  · intro m p hp
    rcases aiRequest_send_shapes env clients c m hp with ⟨e, he⟩ | ⟨r1, r2, r3, r4, he⟩
    · rw [he]
      exact ⟨Or.inr rfl, rfl, rfl⟩
    · rw [he]
      exact ⟨Or.inl rfl, rfl, rfl⟩
  · intro m p hp
    rcases hotkey_send_shapes env clients c m hp with he | ⟨e, he⟩ | ⟨r1, r2, r3, r4, he⟩
    · rw [he]
      exact ⟨Or.inl rfl, rfl, rfl⟩
    · rw [he]
      exact ⟨Or.inr rfl, rfl, rfl⟩
    · rw [he]
      exact ⟨Or.inl rfl, rfl, rfl⟩
  · intro m p hp
    rw [personality_send_shape env clients c m hp]
    exact ⟨rfl, rfl, rfl⟩

/-- Witness for C1's amended theorem at the two-client `"s1"` scenario
with desktop sender `"a"`. -/
theorem typed_paths_full_envelopes_witness :
    (∀ t : String,
      jGet (normalizeMessage desktopA transcriptMsg 5) "type" = some (.jstr t) →
      t = "joinSession" ∨ t = "desktop_connect" →
      ∀ p ∈ (handleWebSocketMessage demoEnv [desktopA, browserB] "a" transcriptMsg 5).sends,
        fullEnvelope p.2 = true) ∧
    (∀ t : String,
      jGet (normalizeMessage desktopA transcriptMsg 5) "type" = some (.jstr t) →
      (t = "transcript" ∨ t = "ai_response" ∨ t = "control_command" ∨
        t = "audio_levels" ∨ t = "status") →
      jDefined (jField (normalizeMessage desktopA transcriptMsg 5) "data") = true →
      ∀ p ∈ (handleWebSocketMessage demoEnv [desktopA, browserB] "a" transcriptMsg 5).sends,
        fullEnvelope p.2 = true) ∧
    fullEnvelope (connectedEnvelope "a" 5) = true ∧
    (∀ e : String, fullEnvelope (parseErrorEnvelope e 5) = true) ∧
    (∀ (xid : String) (p : Send), p ∈ (onClose [desktopA, browserB] xid 5).2 →
      fullEnvelope p.2 = true) ∧
    (∀ (m : JVal) (p : Send),
      p ∈ (handleAIResponseRequest demoEnv [desktopA, browserB] desktopA m).1 →
      (typeDataOnly p.2 = true ∨ typeMessageOnly p.2 = true) ∧
      jGet p.2 "source" = none ∧ jGet p.2 "timestamp" = none) ∧
    (∀ (m : JVal) (p : Send),
      p ∈ (handleHotkey demoEnv [desktopA, browserB] desktopA m).1 →
      (typeDataOnly p.2 = true ∨ typeMessageOnly p.2 = true) ∧
      jGet p.2 "source" = none ∧ jGet p.2 "timestamp" = none) ∧
    (∀ (m : JVal) (p : Send),
      p ∈ (handlePersonalityUpdate demoEnv [desktopA, browserB] desktopA m).1 →
      typeDataOnly p.2 = true ∧
      jGet p.2 "source" = none ∧ jGet p.2 "timestamp" = none) :=
  typed_paths_full_envelopes demoEnv [desktopA, browserB] "a" transcriptMsg 5
    desktopA rfl rfl

/-- Witness for C7 with ten concrete all-zero 4096-byte chunks. -/
theorem audio_ten_chunks_flush_once_witness :
    getTotalBufferSize
        (runChunks ⟨true, []⟩
          [zeroChunk, zeroChunk, zeroChunk, zeroChunk, zeroChunk,
           zeroChunk, zeroChunk, zeroChunk, zeroChunk, zeroChunk]).1 = 0 ∧
    readyPayloads
        (runChunks ⟨true, []⟩
          [zeroChunk, zeroChunk, zeroChunk, zeroChunk, zeroChunk,
           zeroChunk, zeroChunk, zeroChunk, zeroChunk, zeroChunk]).2 =
      [zeroChunk ++ zeroChunk ++ zeroChunk ++ zeroChunk ++ zeroChunk ++
       zeroChunk ++ zeroChunk ++ zeroChunk ++ zeroChunk ++ zeroChunk] ∧
    readyPayloads
        (runChunks ⟨true, []⟩
          [zeroChunk, zeroChunk, zeroChunk, zeroChunk, zeroChunk,
           zeroChunk, zeroChunk, zeroChunk, zeroChunk]).2 = [] := by
  have hlen : zeroChunk.length = 4096 := by
    rw [zeroChunk, List.length_replicate]
  exact audio_ten_chunks_flush_once zeroChunk zeroChunk zeroChunk zeroChunk
    zeroChunk zeroChunk zeroChunk zeroChunk zeroChunk zeroChunk
    hlen hlen hlen hlen hlen hlen hlen hlen hlen hlen

end AICohost
